import Mathlib

/-!
Verification development for the `mio` (metered IO) package.

The package wraps `io.Reader` / `io.Writer` values so that the latency of
every transfer that moves a positive number of bytes is sampled into a
histogram, and provides `SelfCleaningHistogram`, a reference-counted wrapper
that clears the histogram sample pool after a configurable period of
inactivity, driven by a background controller goroutine (`decay`).

The development has two parts.

Part 1 embeds the stream adapters (`NewReader`/`NewWriter`, `Reader.Read` /
`Writer.Write`, `Reader.Close` / `Writer.Close`) as pure functions over an
abstract model of the underlying stream's behaviour and of the attached
histogram (nil / plain histogram / histogram that also implements
`Registrar`).

Part 2 embeds `SelfCleaningHistogram` (`NewSelfCleaningHistogram`, `decay`,
`Register`, `Done`, `Shutdown`, the timer from `time.AfterFunc`, and the
`Update`/`Clear` operations of the wrapped histogram) as a small labelled
transition system.  A trace is a list of atomic steps chosen by an adversarial
scheduler; `run` folds the step function over the trace from the initial
state.  The granularity of the atomic steps follows the source line by line;
the correspondence is documented at each constructor of `Step` and each arm of
`step`.
-/

namespace Mio

/-! ### Part 1: the stream adapters -/

/-- Model of the histogram argument handed to `NewReader` / `NewWriter`
(source: mio.go `NewReader`, mio_writer.go `NewWriter`): it is either the nil
interface, a plain `Histogram`, or a `Histogram` that also implements the
`Registrar` interface.  In Go a type assertion on a nil interface fails, so
`nil` is neither present nor a registrar. -/
inductive HistModel
  | nil
  | plain
  | registrar
  deriving DecidableEq

/-- `h != nil` in the source. -/
def HistModel.present : HistModel → Bool
  | .nil => false
  | .plain => true
  | .registrar => true

/-- the type assertion `h.(Registrar)` succeeding in the source. -/
def HistModel.isReg : HistModel → Bool
  | .registrar => true
  | .nil => false
  | .plain => false

/-- `NewReader` (mio.go lines 19-28): stores the reader and histogram and, if
the histogram implements `Registrar`, calls `Register()` once.  We model the
observable effect: the number of `Register()` calls made by construction. -/
def NewReader.registers (h : HistModel) : Nat :=
  if h.isReg then 1 else 0

/-- `NewWriter` (mio_writer.go lines 19-28), identical to `NewReader`. -/
def NewWriter.registers (h : HistModel) : Nat :=
  if h.isReg then 1 else 0

/-- `Reader.Read` (mio.go lines 32-42).  The underlying read is modelled by
its result `(n, e)` (`n : Int` for Go's `int`; `e : Option Nat` with `none`
for a nil error) and `dur` is the elapsed wall-clock nanoseconds between just
before and just after the delegated call.  The function returns the delegated
result unchanged together with the list of samples passed to `h.Update`:
the source guards the update with `n > 0 && mr.h != nil`. -/
def Reader.read (h : HistModel) (dur : Int) (n : Int) (e : Option Nat) :
    (Int × Option Nat) × List Int :=
  ((n, e), if 0 < n ∧ h.present = true then [dur] else [])

/-- `Writer.Write` (mio_writer.go lines 32-42), identical logic to
`Reader.Read`: the update is guarded by `n > 0 && mw.h != nil`. -/
def Writer.write (h : HistModel) (dur : Int) (n : Int) (e : Option Nat) :
    (Int × Option Nat) × List Int :=
  ((n, e), if 0 < n ∧ h.present = true then [dur] else [])

/-- Static configuration of a wrapped stream for the purpose of `Close`:
which histogram was attached, whether the underlying stream implements
`io.Closer`, and the result its `Close` returns when called. -/
structure StreamCfg where
  h : HistModel
  underIsCloser : Bool
  underCloseErr : Option Nat
  deriving DecidableEq

/-- Mutable state observed across repeated `Close` calls: the `closed` flag
of the wrapper and counters for the effects (`Done()` calls on the histogram,
`Close()` calls on the underlying stream). -/
structure CloseSt where
  closed : Bool
  doneCalls : Nat
  underCloses : Nat
  deriving DecidableEq

/-- Fresh wrapper state as produced by `NewReader` / `NewWriter`. -/
def closeInit : CloseSt := { closed := false, doneCalls := 0, underCloses := 0 }

/-- `Reader.Close` (mio.go lines 47-59): if already closed return nil;
otherwise set `closed`, call `Done()` if the histogram is a `Registrar`, and
close the underlying stream if it is an `io.Closer`, propagating its result;
otherwise return nil. -/
def Reader.close (k : StreamCfg) (s : CloseSt) : Option Nat × CloseSt :=
  if s.closed then (none, s)
  else
    let s1 : CloseSt := { s with closed := true }
    let s2 : CloseSt :=
      if k.h.isReg then { s1 with doneCalls := s1.doneCalls + 1 } else s1
    if k.underIsCloser then
      (k.underCloseErr, { s2 with underCloses := s2.underCloses + 1 })
    else (none, s2)

/-- `Writer.Close` (mio_writer.go lines 47-59), identical to `Reader.Close`. -/
def Writer.close (k : StreamCfg) (s : CloseSt) : Option Nat × CloseSt :=
  if s.closed then (none, s)
  else
    let s1 : CloseSt := { s with closed := true }
    let s2 : CloseSt :=
      if k.h.isReg then { s1 with doneCalls := s1.doneCalls + 1 } else s1
    if k.underIsCloser then
      (k.underCloseErr, { s2 with underCloses := s2.underCloses + 1 })
    else (none, s2)

/-- `N` sequential `Reader.Close` calls, collecting the returned results in
order together with the final state. -/
def Reader.closeN (k : StreamCfg) (s : CloseSt) : Nat → List (Option Nat) × CloseSt
  | 0 => ([], s)
  | n + 1 =>
    let r1 := Reader.close k s
    let rest := Reader.closeN k r1.2 n
    (r1.1 :: rest.1, rest.2)

/-- `N` sequential `Writer.Close` calls. -/
def Writer.closeN (k : StreamCfg) (s : CloseSt) : Nat → List (Option Nat) × CloseSt
  | 0 => ([], s)
  | n + 1 =>
    let r1 := Writer.close k s
    let rest := Writer.closeN k r1.2 n
    (r1.1 :: rest.1, rest.2)

/-! ### Part 2: SelfCleaningHistogram and its controller -/

/-- `2^64`: the modulus of Go's `uint64`, the type of the live-count field
`cnt` of `SelfCleaningHistogram`. -/
def U64 : Nat := 2 ^ 64

/-- `atomic.AddUint64(&h.cnt, 1)` (mio.go line 165). -/
def regOp (c : Nat) : Nat := (c + 1) % U64

/-- `atomic.AddUint64(&h.cnt, ^uint64(0))` (mio.go line 175): adding
`2^64 - 1` modulo `2^64`, i.e. a wrapping decrement. -/
def doneOp (c : Nat) : Nat := (c + (U64 - 1)) % U64

/-- Program counter of the background controller goroutine `decay`
(mio.go lines 141-159):
* `sel`   - blocked at the outer `select` on the activity channel `h.c` and
            the quit channel `h.q` (lines 145-152);
* `drain` - blocked at the bare receive `<-h.d` on the drained channel
            (line 156); note the source does NOT select on `h.q` here;
* `arm`   - between the `<-h.d` receive and re-entering the outer select:
            about to execute `t = time.AfterFunc(delay, h.Clear)` (line 157);
            while here the goroutine is not receiving on `h.c`, so activity
            pulses sent in this window are dropped by `Register`'s
            non-blocking send;
* `term`  - the goroutine has returned (line 151). -/
inductive Loc
  | sel
  | drain
  | arm
  | term
  deriving DecidableEq

/-- One atomic step of the system, chosen by the scheduler:
* `reg`      - a `Register()` call (lines 164-170): wrapping increment of
               `cnt`, then a non-blocking send on the unbuffered channel
               `h.c`; the send pairs with the controller exactly when the
               controller is blocked at the outer select, in which case the
               controller consumes it, stops any armed timer
               (lines 153-155) and proceeds to `<-h.d`;
* `done`     - a `Done()` call (lines 174-182): wrapping decrement; if the
               new value is exactly 0, non-blocking send on the capacity-1
               channel `h.d` (a full buffer drops the pulse, leaving the
               buffer full - same resulting state);
* `shutdown` - a `Shutdown()` call (lines 187-192): guarded by the `closed`
               flag; closes `h.q` (closing an already-closed channel would
               panic, modelled by the `panicked` flag - unreachable thanks
               to the guard);
* `ctlDrain` - the controller's `<-h.d` receive succeeding (line 156);
* `ctlArm`   - the controller executing `t = time.AfterFunc(delay, h.Clear)`
               (line 157) and re-entering the outer select;
* `ctlQuit`  - the controller, blocked at the outer select with `h.q`
               closed, taking the quit branch: stop any timer and return
               (lines 147-151);
* `fire`     - an armed timer whose deadline has been reached firing: the
               runtime invokes `h.Clear`, emptying the sample pool;
* `tick`     - one nanosecond of wall-clock time passing;
* `insert`   - an `Update` call on the wrapped histogram adding one sample
               to the pool (e.g. from a metered Read/Write). -/
inductive Step
  | reg
  | done
  | shutdown
  | ctlDrain
  | ctlArm
  | ctlQuit
  | fire
  | tick
  | insert
  deriving DecidableEq

/-- State of a `SelfCleaningHistogram` together with its controller goroutine
and the wall clock:
* `delay`      - the configured self-cleaning delay (constructor argument);
* `cnt`        - the `uint64` live-count field `h.cnt`;
* `pool`       - number of samples currently in the wrapped histogram
                 (`Count()`); `Clear` resets it to 0;
* `clears`     - how many times `Clear` has been invoked;
* `dBuf`       - whether the capacity-1 drained channel `h.d` holds a pulse;
* `quitClosed` - whether `h.q` has been closed;
* `closedFlag` - the `h.closed` guard flag of `Shutdown`;
* `panicked`   - whether a double `close(h.q)` panic occurred;
* `loc`        - the controller's program counter;
* `timer`      - `some dl` when a timer armed to fire at absolute time `dl`
                 exists, `none` otherwise;
* `now`        - current absolute time in nanoseconds. -/
structure DState where
  delay : Nat
  cnt : Nat
  pool : Nat
  clears : Nat
  dBuf : Bool
  quitClosed : Bool
  closedFlag : Bool
  panicked : Bool
  loc : Loc
  timer : Option Nat
  now : Nat
  deriving DecidableEq

/-- State right after `NewSelfCleaningHistogram` (mio.go lines 125-137)
returns: empty pool, zero live-count, empty channels, controller started and
blocked at the outer select (the constructor waits on the `guard` channel,
which the goroutine closes just before entering the loop). -/
def initState (delay : Nat) : DState :=
  { delay := delay, cnt := 0, pool := 0, clears := 0, dBuf := false,
    quitClosed := false, closedFlag := false, panicked := false,
    loc := Loc.sel, timer := none, now := 0 }

/-- The transition function; disabled steps leave the state unchanged (the
scheduler simply cannot make a blocked goroutine move). -/
def step (s : DState) : Step → DState
  | .reg =>
    let s1 := { s with cnt := regOp s.cnt }
    if s.loc = Loc.sel then { s1 with timer := none, loc := Loc.drain } else s1
  | .done =>
    let c := doneOp s.cnt
    if c = 0 then { s with cnt := c, dBuf := true } else { s with cnt := c }
  | .shutdown =>
    if s.closedFlag then s
    else
      if s.quitClosed then { s with closedFlag := true, panicked := true }
      else { s with closedFlag := true, quitClosed := true }
  | .ctlDrain =>
    if s.loc = Loc.drain ∧ s.dBuf = true then
      { s with dBuf := false, loc := Loc.arm }
    else s
  | .ctlArm =>
    if s.loc = Loc.arm then
      { s with timer := some (s.now + s.delay), loc := Loc.sel }
    else s
  | .ctlQuit =>
    if s.loc = Loc.sel ∧ s.quitClosed = true then
      { s with timer := none, loc := Loc.term }
    else s
  | .fire =>
    match s.timer with
    | some dl =>
      if dl ≤ s.now then
        { s with pool := 0, clears := s.clears + 1, timer := none }
      else s
    | none => s
  | .tick => { s with now := s.now + 1 }
  | .insert => { s with pool := s.pool + 1 }

/-- Run a scheduler-chosen trace from the freshly constructed state. -/
def run (delay : Nat) (tr : List Step) : DState :=
  tr.foldl step (initState delay)

/-- Channel creation in `NewSelfCleaningHistogram` (mio.go lines 128-130):
`c := make(chan struct\x7b\x7d)` (unbuffered), `q := make(chan struct\x7b\x7d)`
(unbuffered), `d := make(chan struct\x7b\x7d, 1)` (capacity 1). -/
structure CleanerChans where
  cCap : Nat
  qCap : Nat
  dCap : Nat
  deriving DecidableEq

/-- The capacities with which the constructor creates the three channels. -/
def NewSelfCleaningHistogram.chans : CleanerChans :=
  { cCap := 0, qCap := 0, dCap := 1 }

/-- `N` sequential `Shutdown()` calls. -/
def shutdownN (s : DState) : Nat → DState
  | 0 => s
  | n + 1 => shutdownN (step s Step.shutdown) n

/-! ### Pure model of Register/Done sequences for the live-count -/

/-- A `Register` or `Done` call, for reasoning about the live-count alone. -/
inductive RD
  | reg
  | done
  deriving DecidableEq

/-- Effect of one call on the `uint64` counter `h.cnt`. -/
def rdOp (c : Nat) : RD → Nat
  | .reg => regOp c
  | .done => doneOp c

/-- The live-count after a finite sequence of `Register`/`Done` calls on a
freshly constructed `SelfCleaningHistogram` (initial `cnt = 0`). -/
def liveAfter (l : List RD) : Nat := l.foldl rdOp 0

/-- Number of `insert` (histogram `Update`) steps in a schedule. -/
def countInsert : List Step → Nat
  | [] => 0
  | Step.insert :: t => countInsert t + 1
  | _ :: t => countInsert t

/-! ### Concrete schedules used in the analysis -/

/-- Schedule exhibiting the lost-activity-pulse race: one sample is inserted;
a `Register` rendezvouses with the controller; its `Done` brings the
live-count to zero (zero-crossing, drained pulse); the controller consumes
the drained pulse; a second `Register` arrives while the controller sits
between the `<-h.d` receive and the outer select (its pulse is dropped by the
non-blocking send); the controller arms the timer; the delay elapses with no
further event and the timer fires, clearing the pool although a `Register`
arrived within the delay after the zero-crossing and the live-count is 1. -/
def trC1 : List Step :=
  [.insert, .reg, .done, .ctlDrain, .reg, .ctlArm] ++
    List.replicate 5 .tick ++ [.fire]

/-- Schedule exhibiting the unobserved quit signal: a `Register` rendezvouses
with the controller, which enters Draining (`<-h.d`); `Shutdown` closes the
quit channel; since the bare `<-h.d` receive does not select on the quit
channel and no `Done` ever produces a drained pulse, every later scheduling
choice leaves the controller blocked in Draining - it never terminates. -/
def trC2 : List Step :=
  [.reg, .shutdown] ++ List.replicate 10 .tick ++
    [.ctlQuit, .ctlDrain, .ctlArm, .fire] ++ List.replicate 10 .tick

/-- Schedule in which a timer is armed at time 0 for deadline 5, the delay
elapses, and then `Shutdown` is called (and returns) while the timer is still
armed, before the controller observes the quit signal. -/
def trC8pre : List Step :=
  [.reg, .done, .ctlDrain, .ctlArm] ++ List.replicate 5 .tick ++ [.shutdown]

/-- `trC8pre` followed by the armed timer firing. -/
def trC8full : List Step := trC8pre ++ [.fire]

/-- Schedule for a freshly constructed cleaner on which `Register` is never
called: one sample is inserted and 50 nanoseconds (ten times the delay of 5)
pass with the live-count at zero throughout. -/
def trC6 : List Step := [.insert] ++ List.replicate 50 .tick

/-- Schedule in which `Register` and `Done` are called after `Shutdown` has
returned but before the controller observes the quit signal: the `Register`'s
non-blocking send still rendezvouses with the controller parked at its outer
select (in Go the close of `q` and the send on `c` race for the blocked
select; the scheduler may deliver the `c` case), moving it to Draining; the
`Done` produces a drained pulse, the controller consumes it and arms the
timer, and after the delay the timer fires and clears the pool. -/
def trC10 : List Step :=
  [.shutdown, .reg, .done, .ctlDrain, .ctlArm] ++
    List.replicate 5 .tick ++ [.fire]

/-! ### Helper lemmas -/

theorem U64_pos : 0 < U64 := by norm_num [U64]

/-- Once the controller goroutine has returned, no step moves it, arms a
timer, or invokes `Clear`. -/
theorem term_step (s : DState) (st : Step) (hl : s.loc = Loc.term)
    (ht : s.timer = none) :
    (step s st).loc = Loc.term ∧ (step s st).timer = none ∧
      (step s st).clears = s.clears := by
  cases st with
  | reg => simp [step, hl, ht]
  | done => simp only [step]; split <;> simp [hl, ht]
  | shutdown => simp only [step]; split_ifs <;> simp [hl, ht]
  | ctlDrain => simp [step, hl, ht]
  | ctlArm => simp [step, hl, ht]
  | ctlQuit => simp [step, hl, ht]
  | fire => simp [step, ht, hl]
  | tick => simp [step, hl, ht]
  | insert => simp [step, hl, ht]

/-- Trace version of `term_step`. -/
theorem term_run (tr : List Step) : ∀ s : DState, s.loc = Loc.term →
    s.timer = none →
    (tr.foldl step s).loc = Loc.term ∧ (tr.foldl step s).timer = none ∧
      (tr.foldl step s).clears = s.clears := by
  induction tr with
  | nil => intro s hl ht; exact ⟨hl, ht, rfl⟩
  | cons st t ih =>
    intro s hl ht
    have h1 := term_step s st hl ht
    have h2 := ih (step s st) h1.1 h1.2.1
    exact ⟨h2.1, h2.2.1, h2.2.2.trans h1.2.2⟩

/-- While the controller is blocked at the bare `<-h.d` receive with an empty
drained buffer, every step other than a `Done` call leaves it blocked there:
in particular the quit signal is not observed in this state. -/
theorem drain_step (s : DState) (st : Step) (hl : s.loc = Loc.drain)
    (hd : s.dBuf = false) (hst : st ≠ Step.done) :
    (step s st).loc = Loc.drain ∧ (step s st).dBuf = false := by
  cases st with
  | reg => simp [step, hl, hd]
  | done => exact absurd rfl hst
  | shutdown => simp only [step]; split_ifs <;> simp [hl, hd]
  | ctlDrain => simp [step, hl, hd]
  | ctlArm => simp [step, hl, hd]
  | ctlQuit => simp [step, hl, hd]
  | fire =>
    cases htm : s.timer with
    | none => simp [step, htm, hl, hd]
    | some dl => simp only [step, htm]; split <;> simp [hl, hd]
  | tick => simp [step, hl, hd]
  | insert => simp [step, hl, hd]

/-- A controller blocked at the outer select with the quit channel closed
observes the quit signal: it stops any armed timer and returns. -/
theorem quit_step (s : DState) (hl : s.loc = Loc.sel)
    (hq : s.quitClosed = true) :
    step s Step.ctlQuit = { s with timer := none, loc := Loc.term } := by
  simp [step, hl, hq]

/-- A second sequential `Shutdown` call is a no-op. -/
theorem shutdown_idem (s : DState) :
    step (step s Step.shutdown) Step.shutdown = step s Step.shutdown := by
  by_cases hc : s.closedFlag
  · simp [step, hc]
  · by_cases hq : s.quitClosed <;> simp [step, hc, hq]

/-- Any number of further sequential `Shutdown` calls after the first is a
no-op. -/
theorem shutdownN_after (n : Nat) : ∀ s : DState,
    shutdownN (step s Step.shutdown) n = step s Step.shutdown := by
  induction n with
  | zero => intro s; rfl
  | succ m ih =>
    intro s
    calc shutdownN (step s Step.shutdown) (m + 1)
        = shutdownN (step (step s Step.shutdown) Step.shutdown) m := rfl
      _ = shutdownN (step s Step.shutdown) m := by rw [shutdown_idem]
      _ = step s Step.shutdown := ih s

/-- With no `Done` call, the drained buffer stays empty, the controller never
reaches the arming point, no timer is ever armed, `Clear` is never invoked
and the pool only grows by inserts. -/
theorem noDone_step (s : DState) (st : Step) (hst : st ≠ Step.done)
    (h1 : s.dBuf = false) (h2 : s.loc ≠ Loc.arm) (h3 : s.timer = none) :
    (step s st).dBuf = false ∧ (step s st).loc ≠ Loc.arm ∧
      (step s st).timer = none ∧ (step s st).clears = s.clears ∧
      (step s st).pool = s.pool + (if st = Step.insert then 1 else 0) := by
  cases st with
  | reg => simp only [step]; split <;> simp [h1, h2, h3]
  | done => exact absurd rfl hst
  | shutdown => simp only [step]; split_ifs <;> simp_all
  | ctlDrain => simp [step, h1, h2, h3]
  | ctlArm => simp [step, h1, h2, h3]
  | ctlQuit => simp only [step]; split <;> simp [h1, h2, h3]
  | fire => simp [step, h1, h2, h3]
  | tick => simp [step, h1, h2, h3]
  | insert => simp [step, h1, h2, h3]

/-- Trace version of `noDone_step`. -/
theorem noDone_run (tr : List Step) : ∀ s : DState,
    (∀ st ∈ tr, st ≠ Step.done) →
    s.dBuf = false → s.loc ≠ Loc.arm → s.timer = none →
    (tr.foldl step s).dBuf = false ∧ (tr.foldl step s).loc ≠ Loc.arm ∧
      (tr.foldl step s).timer = none ∧
      (tr.foldl step s).clears = s.clears ∧
      (tr.foldl step s).pool = s.pool + countInsert tr := by
  induction tr with
  | nil => intro s _ h1 h2 h3; exact ⟨h1, h2, h3, rfl, by simp [countInsert]⟩
  | cons st t ih =>
    intro s hmem h1 h2 h3
    have hst : st ≠ Step.done := hmem st (List.mem_cons_self st t)
    have hs := noDone_step s st hst h1 h2 h3
    have ht := ih (step s st) (fun x hx => hmem x (List.mem_cons_of_mem st hx))
      hs.1 hs.2.1 hs.2.2.1
    refine ⟨ht.1, ht.2.1, ht.2.2.1, ht.2.2.2.1.trans hs.2.2.2.1, ?_⟩
    show (List.foldl step (step s st) t).pool = s.pool + countInsert (st :: t)
    rw [ht.2.2.2.2, hs.2.2.2.2]
    cases st <;> simp [countInsert] <;> omega

set_option maxRecDepth 4096 in
/-- The counter is a `uint64` value: folding any call sequence keeps it below
`2^64`. -/
theorem liveFrom_lt (l : List RD) : ∀ c : Nat, c < U64 → l.foldl rdOp c < U64 := by
  induction l with
  | nil => intro c hc; simpa using hc
  | cons op t ih =>
    intro c hc
    rw [List.foldl_cons]
    cases op with
    | reg =>
      have h1 : rdOp c RD.reg < U64 := by
        show (c + 1) % U64 < U64
        exact Nat.mod_lt (c + 1) U64_pos
      exact ih (rdOp c RD.reg) h1
    | done =>
      have h1 : rdOp c RD.done < U64 := by
        show (c + (U64 - 1)) % U64 < U64
        exact Nat.mod_lt (c + (U64 - 1)) U64_pos
      exact ih (rdOp c RD.done) h1

/-- As long as no intermediate value of the counter would go below zero and
the total never reaches `2^64`, the wrapping increments and decrements
compute exactly (starting value + registers - dones). -/
theorem liveFrom_eq (l : List RD) : ∀ c : Nat,
    (∀ n : Nat, n ≤ l.length →
      ((l.take n).count RD.done) ≤ c + (l.take n).count RD.reg) →
    c + l.length < U64 →
    ((l.foldl rdOp c : Nat) : Int) =
      (c : Int) + ((l.count RD.reg : Nat) : Int) -
        ((l.count RD.done : Nat) : Int) := by
  induction l with
  | nil => intro c _ _; simp
  | cons op t ih =>
    intro c hbal hlen
    simp only [List.length_cons] at hlen
    cases op with
    | reg =>
      have hc1 : c + 1 < U64 := by omega
      have hstep : rdOp c RD.reg = c + 1 := by
        simp only [rdOp, regOp]; exact Nat.mod_eq_of_lt hc1
      have hbal' : ∀ n : Nat, n ≤ t.length →
          ((t.take n).count RD.done) ≤ (c + 1) + (t.take n).count RD.reg := by
        intro n hn
        have := hbal (n + 1) (by simp only [List.length_cons]; omega)
        simp only [List.take_succ_cons, List.count_cons] at this
        simp at this
        omega
      have hih := ih (c + 1) hbal' (by omega)
      rw [List.foldl_cons, hstep, hih]
      simp only [List.count_cons]
      simp
      omega
    | done =>
      have hc1 : 1 ≤ c := by
        have := hbal 1 (by simp only [List.length_cons]; omega)
        simp only [List.take_succ_cons, List.take_zero, List.count_cons] at this
        simp at this
        omega
      have hcU : c < U64 := by omega
      have hstep : rdOp c RD.done = c - 1 := by
        simp only [rdOp, doneOp]
        have he : c + (U64 - 1) = (c - 1) + U64 := by
          have := U64_pos; omega
        rw [he, Nat.add_mod_right, Nat.mod_eq_of_lt (by omega)]
      have hbal' : ∀ n : Nat, n ≤ t.length →
          ((t.take n).count RD.done) ≤ (c - 1) + (t.take n).count RD.reg := by
        intro n hn
        have := hbal (n + 1) (by simp only [List.length_cons]; omega)
        simp only [List.take_succ_cons, List.count_cons] at this
        simp at this
        omega
      have hih := ih (c - 1) hbal' (by omega)
      rw [List.foldl_cons, hstep, hih]
      simp only [List.count_cons]
      simp
      omega

/-- `Writer.Close` has the same body as `Reader.Close`. -/
theorem writer_close_eq : Writer.close = Reader.close := rfl

/-- Closing an already-closed wrapper is a complete no-op returning nil. -/
theorem close_of_closed (k : StreamCfg) (s : CloseSt) (h : s.closed = true) :
    Reader.close k s = (none, s) := by
  simp [Reader.close, h]

/-- Any number of `Close` calls on an already-closed wrapper returns nil every
time and changes nothing. -/
theorem closeN_of_closed (k : StreamCfg) : ∀ (n : Nat) (s : CloseSt),
    s.closed = true → Reader.closeN k s n = (List.replicate n none, s) := by
  intro n
  induction n with
  | zero => intro s _; rfl
  | succ m ih =>
    intro s h
    show Reader.closeN k s (m + 1) = _
    rw [Reader.closeN, close_of_closed k s h, ih s h]
    rfl

/-- The effects and result of the first `Close` call on a fresh wrapper. -/
theorem close_first (k : StreamCfg) :
    (Reader.close k closeInit).2.closed = true ∧
    (Reader.close k closeInit).2.doneCalls = (if k.h.isReg then 1 else 0) ∧
    (Reader.close k closeInit).2.underCloses = (if k.underIsCloser then 1 else 0) ∧
    (Reader.close k closeInit).1 = (if k.underIsCloser then k.underCloseErr else none) := by
  by_cases hR : k.h.isReg <;> by_cases hC : k.underIsCloser <;>
    simp [Reader.close, closeInit, hR, hC]

/-- `Writer.closeN` coincides with `Reader.closeN`. -/
theorem writer_closeN_eq : ∀ (n : Nat) (k : StreamCfg) (s : CloseSt),
    Writer.closeN k s n = Reader.closeN k s n := by
  intro n
  induction n with
  | zero => intro k s; rfl
  | succ m ih =>
    intro k s
    show Writer.closeN k s (m + 1) = Reader.closeN k s (m + 1)
    rw [Writer.closeN, Reader.closeN, writer_close_eq, ih]

/-! ### Claims -/

/-- Claim C1 (code bug).  The claim states that the sample pool is cleared
only when the live-count is (or was at the last observed zero-crossing) zero
and no activity signal has arrived within the configured delay since that
zero-crossing, and that a `Register` occurring before the delay elapses
postpones clearing to a later zero-crossing followed by a full uninterrupted
delay.  The code violates this: on the schedule `trC1` (delay 5) a sample is
inserted, a `Register`/`Done` pair produces a zero-crossing at time 0, the
controller consumes the drained pulse, a second `Register` arrives at time 0
- well inside the delay window - while the controller sits between the
`<-h.d` receive and the outer select, so its non-blocking activity send on
the unbuffered channel is dropped; the controller then arms the timer, and
at time 5 the timer fires and clears the pool even though the live-count is
1 and a `Register` arrived within the delay of the zero-crossing.  This run
evaluates the embedded code at that schedule: `Clear` ran exactly once, the
inserted sample is gone, and the live-count is 1. -/
theorem C1_clear_despite_register :
    (run 5 trC1).clears = 1 ∧ (run 5 trC1).cnt = 1 ∧ (run 5 trC1).pool = 0 ∧
    (run 5 trC1).now = 5 ∧
    (run 5 [Step.insert, Step.reg, Step.done]).cnt = 0 := by decide

/-- Claim C2 (counterexample).  The claim states that once `Shutdown` has
been called the background controller stops any armed timer and terminates
from every state, including from Draining.  On the schedule `trC2` a
`Register` puts the controller into Draining (the bare `<-h.d` receive on
line 156, which does not select on the quit channel), `Shutdown` closes the
quit channel, and after every further scheduling choice - ticks, and the
(disabled) controller steps - the controller is still blocked in Draining:
it has not terminated. -/
theorem C2_counterexample :
    (run 5 trC2).quitClosed = true ∧ (run 5 trC2).closedFlag = true ∧
    (run 5 trC2).loc = Loc.drain ∧ ¬ (run 5 trC2).loc = Loc.term := by decide

/-- Claim C2 (amended).  Once `Shutdown` has been called: (a) while the
controller is blocked at the bare `<-h.d` receive with an empty drained
buffer, no step other than a `Done` call moves it - the quit signal is not
observed from Draining, so termination there must wait for a drained signal;
(b) when the controller is at its outer select with the quit channel closed,
taking the quit branch stops any armed timer and terminates it; (c) once the
controller has terminated with no armed timer, it stays terminated, no timer
is ever armed again, and the sample pool is never cleared again, on every
subsequent schedule. -/
theorem C2_shutdown_termination :
    (∀ (s : DState) (st : Step), s.loc = Loc.drain → s.dBuf = false →
      st ≠ Step.done → (step s st).loc = Loc.drain ∧ (step s st).dBuf = false) ∧
    (∀ s : DState, s.loc = Loc.sel → s.quitClosed = true →
      step s Step.ctlQuit = { s with timer := none, loc := Loc.term }) ∧
    (∀ (s : DState) (tr : List Step), s.loc = Loc.term → s.timer = none →
      (tr.foldl step s).loc = Loc.term ∧ (tr.foldl step s).timer = none ∧
        (tr.foldl step s).clears = s.clears) :=
  ⟨drain_step, quit_step, fun s tr hl ht => term_run tr s hl ht⟩

/-- Witness for `C2_shutdown_termination` at concrete states: the state after
`[reg, shutdown]` is in Draining with an empty drained buffer and a tick
leaves it there; the fresh state after `[shutdown]` is at the select with
quit closed and `ctlQuit` terminates it; from the terminated state after
`[shutdown, ctlQuit]`, a tick preserves termination. -/
theorem C2_shutdown_termination_witness :
    ((step (run 5 [Step.reg, Step.shutdown]) Step.tick).loc = Loc.drain ∧
      (step (run 5 [Step.reg, Step.shutdown]) Step.tick).dBuf = false) ∧
    step (run 5 [Step.shutdown]) Step.ctlQuit =
      { run 5 [Step.shutdown] with timer := none, loc := Loc.term } ∧
    (([Step.tick].foldl step (run 5 [Step.shutdown, Step.ctlQuit])).loc = Loc.term ∧
      ([Step.tick].foldl step (run 5 [Step.shutdown, Step.ctlQuit])).timer = none ∧
      ([Step.tick].foldl step (run 5 [Step.shutdown, Step.ctlQuit])).clears =
        (run 5 [Step.shutdown, Step.ctlQuit]).clears) :=
  ⟨C2_shutdown_termination.1 (run 5 [Step.reg, Step.shutdown]) Step.tick
      (by decide) (by decide) (by decide),
    C2_shutdown_termination.2.1 (run 5 [Step.shutdown]) (by decide) (by decide),
    C2_shutdown_termination.2.2 (run 5 [Step.shutdown, Step.ctlQuit]) [Step.tick]
      (by decide) (by decide)⟩

/-- Claim C3 (confirmed).  For every wrapped stream (Reader or Writer) and
every N >= 1, calling `Close` N times calls the histogram's `Done()` exactly
once when the histogram implements `Registrar` (zero times otherwise), calls
the underlying stream's `Close` exactly once when it implements `io.Closer`
(zero times otherwise), the first `Close` returns the underlying close
result, and every subsequent `Close` returns nil even if the first returned
an error. -/
theorem C3_close_idempotent (k : StreamCfg) (N : Nat) (hN : 1 ≤ N) :
    (Reader.closeN k closeInit N).2.doneCalls = (if k.h.isReg then 1 else 0) ∧
    (Reader.closeN k closeInit N).2.underCloses =
      (if k.underIsCloser then 1 else 0) ∧
    (Reader.closeN k closeInit N).1.head? =
      some (if k.underIsCloser then k.underCloseErr else none) ∧
    (∀ r ∈ (Reader.closeN k closeInit N).1.tail, r = none) ∧
    (Writer.closeN k closeInit N).2.doneCalls = (if k.h.isReg then 1 else 0) ∧
    (Writer.closeN k closeInit N).2.underCloses =
      (if k.underIsCloser then 1 else 0) ∧
    (Writer.closeN k closeInit N).1.head? =
      some (if k.underIsCloser then k.underCloseErr else none) ∧
    (∀ r ∈ (Writer.closeN k closeInit N).1.tail, r = none) := by
  cases N with
  | zero => exact absurd hN (by omega)
  | succ n =>
    have hf := close_first k
    have hrest := closeN_of_closed k n (Reader.close k closeInit).2 hf.1
    have hu : Reader.closeN k closeInit (n + 1) =
        ((Reader.close k closeInit).1 :: List.replicate n none,
          (Reader.close k closeInit).2) := by
      simp only [Reader.closeN]
      rw [hrest]
    rw [writer_closeN_eq, hu]
    refine ⟨hf.2.1, hf.2.2.1, by rw [List.head?_cons, hf.2.2.2], ?_,
      hf.2.1, hf.2.2.1, by rw [List.head?_cons, hf.2.2.2], ?_⟩ <;>
    · intro r hr
      simp only [List.tail_cons] at hr
      exact List.eq_of_mem_replicate hr

/-- Witness for `C3_close_idempotent`: a Reader/Writer over a closable stream
whose close fails with error 3 and a Registrar histogram, closed twice. -/
theorem C3_close_idempotent_witness :
    (Reader.closeN ⟨HistModel.registrar, true, some 3⟩ closeInit 2).2.doneCalls = 1 ∧
    (Reader.closeN ⟨HistModel.registrar, true, some 3⟩ closeInit 2).2.underCloses = 1 ∧
    (Reader.closeN ⟨HistModel.registrar, true, some 3⟩ closeInit 2).1.head? =
      some (some 3) ∧
    (∀ r ∈ (Reader.closeN ⟨HistModel.registrar, true, some 3⟩ closeInit 2).1.tail,
      r = none) ∧
    (Writer.closeN ⟨HistModel.registrar, true, some 3⟩ closeInit 2).2.doneCalls = 1 ∧
    (Writer.closeN ⟨HistModel.registrar, true, some 3⟩ closeInit 2).2.underCloses = 1 ∧
    (Writer.closeN ⟨HistModel.registrar, true, some 3⟩ closeInit 2).1.head? =
      some (some 3) ∧
    (∀ r ∈ (Writer.closeN ⟨HistModel.registrar, true, some 3⟩ closeInit 2).1.tail,
      r = none) :=
  C3_close_idempotent ⟨HistModel.registrar, true, some 3⟩ 2 (by omega)

/-- Claim C4 (counterexample).  The claim states that no sample is recorded
for a failed transfer, in particular that a transfer returning both n > 0
and a non-nil error records no sample.  The code records a sample whenever
n > 0 and the histogram is non-nil, regardless of the error: a read that
moved 5 bytes and also returned error 7 records the duration sample 42. -/
theorem C4_counterexample :
    Reader.read HistModel.plain 42 5 (some 7) = ((5, some 7), [42]) ∧
    Writer.write HistModel.plain 42 5 (some 7) = ((5, some 7), [42]) ∧
    ¬ (Reader.read HistModel.plain 42 5 (some 7)).2 = [] := by decide

/-- Claim C4 (amended).  For every Read or Write on a wrapped stream with a
non-nil histogram, the call returns exactly the byte count and error of the
delegated call, and a duration sample (in nanoseconds) is inserted if and
only if the transfer moved a strictly positive number of bytes - regardless
of whether the error is nil; a zero-byte transfer records no sample. -/
theorem C4_sampling (h : HistModel) (dur n : Int) (e : Option Nat)
    (hp : h.present = true) :
    Reader.read h dur n e = ((n, e), if 0 < n then [dur] else []) ∧
    Writer.write h dur n e = ((n, e), if 0 < n then [dur] else []) := by
  constructor <;> simp [Reader.read, Writer.write, hp]

/-- Witness for `C4_sampling` at a plain histogram and a successful 5-byte
transfer taking 42 ns. -/
theorem C4_sampling_witness :
    Reader.read HistModel.plain 42 5 none = ((5, none), if (0 : Int) < 5 then [42] else []) ∧
    Writer.write HistModel.plain 42 5 none = ((5, none), if (0 : Int) < 5 then [42] else []) :=
  C4_sampling HistModel.plain 42 5 none (by decide)

/-- Claim C5 (counterexample).  The claim states that the live-count after
any sequence of `Register`/`Done` calls equals (registers - dones) with no
precondition that `Done` calls are matched by prior `Register` calls.  A
single unmatched `Done` makes the `uint64` counter wrap to 2^64 - 1, which
does not equal registers - dones = -1. -/
theorem C5_counterexample :
    liveAfter [RD.done] = U64 - 1 ∧
    ¬ ((liveAfter [RD.done] : Int) =
        (([RD.done].count RD.reg : Nat) : Int) -
          (([RD.done].count RD.done : Nat) : Int)) := by decide

/-- Claim C5 (amended).  The live-count is a `uint64`: after any sequence it
is a value below 2^64 (in particular never negative).  When every initial
segment of the sequence contains at least as many `Register` as `Done` calls
and the sequence has fewer than 2^64 events, the live-count after the
sequence equals exactly (registers - dones). -/
theorem C5_live_count (l : List RD)
    (hbal : ∀ n : Nat, n ≤ l.length →
      ((l.take n).count RD.done) ≤ (l.take n).count RD.reg)
    (hlen : l.length < U64) :
    liveAfter l < U64 ∧
    ((liveAfter l : Nat) : Int) =
      ((l.count RD.reg : Nat) : Int) - ((l.count RD.done : Nat) : Int) := by
  constructor
  · exact liveFrom_lt l 0 U64_pos
  · have h := liveFrom_eq l 0 (by intro n hn; simpa using hbal n hn) (by simpa using hlen)
    simpa using h

/-- Witness for `C5_live_count` at the balanced sequence
register, register, done: the live-count is 1 = 2 - 1. -/
theorem C5_live_count_witness :
    liveAfter [RD.reg, RD.reg, RD.done] < U64 ∧
    ((liveAfter [RD.reg, RD.reg, RD.done] : Nat) : Int) =
      (([RD.reg, RD.reg, RD.done].count RD.reg : Nat) : Int) -
        (([RD.reg, RD.reg, RD.done].count RD.done : Nat) : Int) :=
  C5_live_count [RD.reg, RD.reg, RD.done]
    (by
      intro n hn
      simp only [List.length_cons, List.length_nil] at hn
      interval_cases n <;> decide)
    (by norm_num [U64])

/-- Claim C6 (counterexample).  The claim states that whenever the live-count
is zero for at least the delay with no intervening `Register`, the pool is
empty shortly after the delay elapses, including on a freshly constructed
cleaner on which `Register` was never called.  On the schedule `trC6`
(delay 5) one sample is inserted into a fresh cleaner and the live-count is
zero throughout; after 50 ns - ten times the delay - the pool still holds
the sample and `Clear` has never run (and by `C6_clearing` it never will:
no `Done` call ever produces the drained signal needed to arm the timer). -/
theorem C6_counterexample :
    (run 5 trC6).cnt = 0 ∧ (run 5 trC6).delay = 5 ∧ (run 5 trC6).now = 50 ∧
    (run 5 trC6).clears = 0 ∧ ¬ (run 5 trC6).pool = 0 := by decide

/-- Claim C6 (amended).  The pool is cleared only via the controller's timer,
which is armed only after a drained signal produced by a `Done` call that
brought the live-count to zero: (a) on any schedule containing no `Done`
step, no timer is ever armed, `Clear` never runs, and the pool holds exactly
the inserted samples; (b) when a timer is armed with a deadline that has been
reached, its firing empties the pool. -/
theorem C6_clearing :
    (∀ (d : Nat) (tr : List Step), (∀ st ∈ tr, st ≠ Step.done) →
      (run d tr).clears = 0 ∧ (run d tr).pool = countInsert tr) ∧
    (∀ (s : DState) (dl : Nat), s.timer = some dl → dl ≤ s.now →
      (step s Step.fire).pool = 0 ∧ (step s Step.fire).clears = s.clears + 1) := by
  constructor
  · intro d tr hnd
    have h := noDone_run tr (initState d) hnd rfl (by simp [initState]) rfl
    refine ⟨h.2.2.2.1, ?_⟩
    show (tr.foldl step (initState d)).pool = countInsert tr
    rw [h.2.2.2.2]
    simp [initState]
  · intro s dl h1 h2
    simp [step, h1, h2]

/-- Witness for `C6_clearing`: the no-`Done` schedule insert-then-tick leaves
one uncleared sample; the armed state reached by
`[reg, done, ctlDrain, ctlArm]` plus 5 ticks has its pool emptied by the
timer firing. -/
theorem C6_clearing_witness :
    ((run 5 [Step.insert, Step.tick]).clears = 0 ∧
      (run 5 [Step.insert, Step.tick]).pool = countInsert [Step.insert, Step.tick]) ∧
    ((step (run 5 ([Step.reg, Step.done, Step.ctlDrain, Step.ctlArm] ++
        List.replicate 5 Step.tick)) Step.fire).pool = 0 ∧
      (step (run 5 ([Step.reg, Step.done, Step.ctlDrain, Step.ctlArm] ++
        List.replicate 5 Step.tick)) Step.fire).clears =
        (run 5 ([Step.reg, Step.done, Step.ctlDrain, Step.ctlArm] ++
          List.replicate 5 Step.tick)).clears + 1) :=
  ⟨C6_clearing.1 5 [Step.insert, Step.tick] (by decide),
    C6_clearing.2 (run 5 ([Step.reg, Step.done, Step.ctlDrain, Step.ctlArm] ++
      List.replicate 5 Step.tick)) 5 (by decide) (by decide)⟩

/-- Claim C7 (counterexample).  The claim states that the constructor creates
the activity signaling channel with capacity 1 so that one pulse is buffered
when the controller is not receiving.  The constructor creates the activity
channel `h.c` unbuffered: its capacity is 0, not 1 (mio.go line 128,
`make(chan struct ...)` with no capacity argument). -/
theorem C7_counterexample :
    NewSelfCleaningHistogram.chans.cCap = 0 ∧
    ¬ NewSelfCleaningHistogram.chans.cCap = 1 := by decide

/-- Claim C7 (amended).  The constructor creates the activity channel
unbuffered (capacity 0), the quit channel unbuffered, and the drained channel
with capacity 1.  `Register`'s activity send is non-blocking and is never
buffered: it succeeds exactly when the controller is currently blocked at its
outer select (rendezvous, after which the controller stops any armed timer
and enters Draining); in every other controller state the pulse is dropped
and `Register`'s only effect is the live-count increment. -/
theorem C7_activity_channel :
    NewSelfCleaningHistogram.chans.cCap = 0 ∧
    NewSelfCleaningHistogram.chans.qCap = 0 ∧
    NewSelfCleaningHistogram.chans.dCap = 1 ∧
    (∀ s : DState, ¬ s.loc = Loc.sel →
      step s Step.reg = { s with cnt := regOp s.cnt }) ∧
    (∀ s : DState, s.loc = Loc.sel →
      step s Step.reg =
        { s with cnt := regOp s.cnt, timer := none, loc := Loc.drain }) := by
  refine ⟨rfl, rfl, rfl, ?_, ?_⟩ <;> intro s h <;> simp [step, h]

/-- Witness for `C7_activity_channel`: after one rendezvoused `Register` the
controller is in Draining, so a second `Register` only increments the count;
from the fresh state a `Register` rendezvouses. -/
theorem C7_activity_channel_witness :
    step (run 5 [Step.reg]) Step.reg =
      { run 5 [Step.reg] with cnt := regOp (run 5 [Step.reg]).cnt } ∧
    step (initState 5) Step.reg =
      { initState 5 with
          cnt := regOp (initState 5).cnt
          timer := none
          loc := Loc.drain } :=
  ⟨C7_activity_channel.2.2.2.1 (run 5 [Step.reg]) (by decide),
    C7_activity_channel.2.2.2.2 (initState 5) (by decide)⟩

/-- Claim C8 (counterexample).  The claim states that after `Shutdown`
returns, no timer fires.  On the schedule `trC8pre` a timer armed at time 0
with deadline 5 is still armed when `Shutdown` is called at time 5 and
returns (quit closed, flag set, nothing cleared yet); the scheduler may then
run the pending timer before the controller observes the quit signal, and it
fires and clears the pool - a timer fired after `Shutdown` returned. -/
theorem C8_counterexample :
    (run 5 trC8pre).closedFlag = true ∧ (run 5 trC8pre).quitClosed = true ∧
    (run 5 trC8pre).timer = some 5 ∧ (run 5 trC8pre).clears = 0 ∧
    (run 5 trC8full).clears = 1 := by decide

/-- Claim C8 (amended).  `Shutdown` is idempotent: for every N >= 1, N
sequential calls produce exactly the state of one call; the first call sets
the closed flag and closes the quit channel, and repeated calls never panic
(no double close of the quit channel) and are no-ops.  However a timer that
is already armed may still fire after `Shutdown` returns, until the
controller observes the quit signal; once the controller has terminated
(with its timer stopped), no clearing ever occurs on any schedule. -/
theorem C8_shutdown_idempotent :
    (∀ (s : DState) (N : Nat), 1 ≤ N → shutdownN s N = step s Step.shutdown) ∧
    (∀ s : DState, (step s Step.shutdown).closedFlag = true) ∧
    (∀ s : DState, s.closedFlag = false → s.quitClosed = false →
      (step s Step.shutdown).quitClosed = true ∧
        (step s Step.shutdown).panicked = s.panicked) ∧
    (∀ s : DState, s.closedFlag = true → step s Step.shutdown = s) ∧
    (∀ (s : DState) (tr : List Step), s.loc = Loc.term → s.timer = none →
      (tr.foldl step s).clears = s.clears) := by
  refine ⟨?_, ?_, ?_, ?_, ?_⟩
  · intro s N hN
    cases N with
    | zero => exact absurd hN (by omega)
    | succ n =>
      show shutdownN (step s Step.shutdown) n = step s Step.shutdown
      exact shutdownN_after n s
  · intro s
    by_cases hc : s.closedFlag
    · simp [step, hc]
    · by_cases hq : s.quitClosed <;> simp [step, hc, hq]
  · intro s hc hq
    simp [step, hc, hq]
  · intro s hc
    simp [step, hc]
  · intro s tr hl ht
    exact (term_run tr s hl ht).2.2

/-- Witness for `C8_shutdown_idempotent` at concrete states: three sequential
`Shutdown` calls on the fresh state equal one; the flag and channel effects
of the first call; idempotence of a repeated call; and stability of `clears`
after termination. -/
theorem C8_shutdown_idempotent_witness :
    shutdownN (initState 5) 3 = step (initState 5) Step.shutdown ∧
    (step (initState 5) Step.shutdown).closedFlag = true ∧
    ((step (initState 5) Step.shutdown).quitClosed = true ∧
      (step (initState 5) Step.shutdown).panicked = (initState 5).panicked) ∧
    step (run 5 [Step.shutdown]) Step.shutdown = run 5 [Step.shutdown] ∧
    ([Step.tick].foldl step (run 5 [Step.shutdown, Step.ctlQuit])).clears =
      (run 5 [Step.shutdown, Step.ctlQuit]).clears :=
  ⟨C8_shutdown_idempotent.1 (initState 5) 3 (by omega),
    C8_shutdown_idempotent.2.1 (initState 5),
    C8_shutdown_idempotent.2.2.1 (initState 5) (by decide) (by decide),
    C8_shutdown_idempotent.2.2.2.1 (run 5 [Step.shutdown]) (by decide),
    C8_shutdown_idempotent.2.2.2.2 (run 5 [Step.shutdown, Step.ctlQuit])
      [Step.tick] (by decide) (by decide)⟩

/-- Claim C9 (confirmed).  With a nil histogram every operation of a wrapped
stream is fault-free: construction performs no registration, every
Read/Write returns exactly the underlying byte count and error and inserts
no sample, and Close calls no `Done()` and closes the underlying stream
exactly when it implements `io.Closer`, propagating its result. -/
theorem C9_nil_histogram :
    NewReader.registers HistModel.nil = 0 ∧
    NewWriter.registers HistModel.nil = 0 ∧
    (∀ (dur n : Int) (e : Option Nat),
      Reader.read HistModel.nil dur n e = ((n, e), []) ∧
      Writer.write HistModel.nil dur n e = ((n, e), [])) ∧
    (∀ (uc : Bool) (er : Option Nat),
      (Reader.close ⟨HistModel.nil, uc, er⟩ closeInit).2.doneCalls = 0 ∧
      (Writer.close ⟨HistModel.nil, uc, er⟩ closeInit).2.doneCalls = 0 ∧
      (Reader.close ⟨HistModel.nil, uc, er⟩ closeInit).2.underCloses =
        (if uc then 1 else 0) ∧
      (Reader.close ⟨HistModel.nil, uc, er⟩ closeInit).1 =
        (if uc then er else none)) := by
  refine ⟨rfl, rfl, ?_, ?_⟩
  · intro dur n e
    constructor <;> simp [Reader.read, Writer.write, HistModel.present]
  · intro uc er
    cases uc <;>
      simp [Reader.close, Writer.close, closeInit, HistModel.isReg]

/-- Witness for `C9_nil_histogram` at a concrete read result and a closable
underlying stream failing with error 9. -/
theorem C9_nil_histogram_witness :
    (Reader.read HistModel.nil 42 5 none = ((5, none), []) ∧
      Writer.write HistModel.nil 42 5 none = ((5, none), [])) ∧
    ((Reader.close ⟨HistModel.nil, true, some 9⟩ closeInit).2.doneCalls = 0 ∧
      (Writer.close ⟨HistModel.nil, true, some 9⟩ closeInit).2.doneCalls = 0 ∧
      (Reader.close ⟨HistModel.nil, true, some 9⟩ closeInit).2.underCloses =
        (if true then 1 else 0) ∧
      (Reader.close ⟨HistModel.nil, true, some 9⟩ closeInit).1 =
        (if true then some 9 else none)) :=
  ⟨C9_nil_histogram.2.2.1 42 5 none, C9_nil_histogram.2.2.2 true (some 9)⟩

/-- Claim C10 (counterexample).  The claim states that `Register` and `Done`
called at any time after `Shutdown` have as their only effect the update of
the atomic live-count.  That is false in the window after `Shutdown` returns
and before the controller observes the quit signal: after `[shutdown]` the
quit channel is closed and the controller is still parked at its outer
select, where a `Register`'s non-blocking send still rendezvouses with it and
moves it to Draining - an effect beyond the live-count; and on the schedule
`trC10`, where `Register` and `Done` both run after `Shutdown` returned, the
`Done`'s drained pulse drives the controller to arm the timer, which fires
and clears the pool (`clears = 1`). -/
theorem C10_counterexample :
    (run 5 [Step.shutdown]).quitClosed = true ∧
    (run 5 [Step.shutdown]).closedFlag = true ∧
    (run 5 [Step.shutdown]).loc = Loc.sel ∧
    ¬ (step (run 5 [Step.shutdown]) Step.reg).loc = (run 5 [Step.shutdown]).loc ∧
    (run 5 trC10).closedFlag = true ∧
    (run 5 trC10).clears = 1 ∧ (run 5 trC10).pool = 0 := by decide

/-- Claim C10 (amended).  `Register` and `Done` called at any time - in
particular after `Shutdown` - never block and never panic: both are total
transitions whose channel operations are non-blocking sends on channels
that are never closed, and neither touches the quit channel, the closed
flag, or the panic flag; `Register` always performs the wrapping live-count
increment and `Done` the wrapping decrement.  Only once the background
controller has terminated is their effect confined to the live-count:
`Register`'s pulse is dropped (the terminated controller is not receiving)
and `Done` at most fills the capacity-1 drained buffer, which nothing
consumes any more; before the controller terminates, a `Register` may still
rendezvous with it and a `Done`'s drained pulse may still lead to the timer
being armed and the pool cleared (see the counterexample). -/
theorem C10_post_shutdown_register_done :
    (∀ s : DState,
      (step s Step.reg).panicked = s.panicked ∧
      (step s Step.reg).quitClosed = s.quitClosed ∧
      (step s Step.reg).closedFlag = s.closedFlag ∧
      (step s Step.reg).cnt = regOp s.cnt ∧
      (step s Step.done).panicked = s.panicked ∧
      (step s Step.done).quitClosed = s.quitClosed ∧
      (step s Step.done).closedFlag = s.closedFlag ∧
      (step s Step.done).cnt = doneOp s.cnt) ∧
    (∀ s : DState, s.loc = Loc.term →
      step s Step.reg = { s with cnt := regOp s.cnt } ∧
      step s Step.done =
        { s with
            cnt := doneOp s.cnt
            dBuf := if doneOp s.cnt = 0 then true else s.dBuf } ∧
      (step s Step.reg).pool = s.pool ∧ (step s Step.done).pool = s.pool ∧
      (step s Step.reg).clears = s.clears ∧
      (step s Step.done).clears = s.clears ∧
      (step s Step.reg).loc = Loc.term ∧
      (step s Step.done).loc = Loc.term) := by
  constructor
  · intro s
    by_cases hl : s.loc = Loc.sel <;> by_cases hz : doneOp s.cnt = 0 <;>
      simp [step, hl, hz]
  · intro s h
    have hreg : step s Step.reg = { s with cnt := regOp s.cnt } := by
      simp [step, h]
    have hdone : step s Step.done =
        { s with
            cnt := doneOp s.cnt
            dBuf := if doneOp s.cnt = 0 then true else s.dBuf } := by
      by_cases hz : doneOp s.cnt = 0 <;> simp [step, hz]
    refine ⟨hreg, hdone, ?_, ?_, ?_, ?_, ?_, ?_⟩ <;>
      simp [hreg, hdone, h]

/-- Witness for `C10_post_shutdown_register_done`: the no-panic/no-quit part
at the post-`Shutdown` (still live) state after `[shutdown]`, and the
count-only part at the terminated state reached by `[shutdown, ctlQuit]`. -/
theorem C10_post_shutdown_register_done_witness :
    ((step (run 5 [Step.shutdown]) Step.reg).panicked =
        (run 5 [Step.shutdown]).panicked ∧
      (step (run 5 [Step.shutdown]) Step.reg).quitClosed =
        (run 5 [Step.shutdown]).quitClosed ∧
      (step (run 5 [Step.shutdown]) Step.reg).closedFlag =
        (run 5 [Step.shutdown]).closedFlag ∧
      (step (run 5 [Step.shutdown]) Step.reg).cnt =
        regOp (run 5 [Step.shutdown]).cnt ∧
      (step (run 5 [Step.shutdown]) Step.done).panicked =
        (run 5 [Step.shutdown]).panicked ∧
      (step (run 5 [Step.shutdown]) Step.done).quitClosed =
        (run 5 [Step.shutdown]).quitClosed ∧
      (step (run 5 [Step.shutdown]) Step.done).closedFlag =
        (run 5 [Step.shutdown]).closedFlag ∧
      (step (run 5 [Step.shutdown]) Step.done).cnt =
        doneOp (run 5 [Step.shutdown]).cnt) ∧
    (step (run 5 [Step.shutdown, Step.ctlQuit]) Step.reg =
        { run 5 [Step.shutdown, Step.ctlQuit] with
            cnt := regOp (run 5 [Step.shutdown, Step.ctlQuit]).cnt } ∧
      step (run 5 [Step.shutdown, Step.ctlQuit]) Step.done =
        { run 5 [Step.shutdown, Step.ctlQuit] with
            cnt := doneOp (run 5 [Step.shutdown, Step.ctlQuit]).cnt
            dBuf := if doneOp (run 5 [Step.shutdown, Step.ctlQuit]).cnt = 0
              then true else (run 5 [Step.shutdown, Step.ctlQuit]).dBuf }) :=
  ⟨C10_post_shutdown_register_done.1 (run 5 [Step.shutdown]),
    ⟨(C10_post_shutdown_register_done.2 (run 5 [Step.shutdown, Step.ctlQuit])
        (by decide)).1,
      (C10_post_shutdown_register_done.2 (run 5 [Step.shutdown, Step.ctlQuit])
        (by decide)).2.1⟩⟩

end Mio
